import Mathlib

/-!
Verification of the analysis-controller and risk-presentation logic of the
wallet-detection frontend (src/frontend/fraud-detector-ui/src/App.jsx).

Modelling conventions:
  * JavaScript numbers are modelled as exact rationals.
  * JavaScript string helpers (trim, startsWith) are modelled structurally
    over the character list of the string, so that they evaluate inside the
    kernel; they agree with the JavaScript methods on the inputs that occur.
  * React state (address, result, loading, error) is the record UiState; a
    call to analyzeAddress together with the outcome of its single fetch is
    modelled as a pure function from the starting state and the fetch
    outcome to an AttemptResult, which records the observable in-flight
    state, the issued request body (if any), the trace of setLoading calls,
    and the final state.
  * A JSX interpolation that may render nothing (absent value) is modelled
    as Option String, none meaning a blank rendering.
-/

namespace WalletDetection

/-- Model of JavaScript String.prototype.trim: drop whitespace characters
from both ends. Stated over the character list so the kernel can evaluate
it (the builtin String.trim is defined by well-founded recursion on byte
positions and does not reduce). -/
def jsTrim (s : String) : String :=
  String.mk (((s.data.dropWhile Char.isWhitespace).reverse.dropWhile
      Char.isWhitespace).reverse)

/-- Model of JavaScript String.prototype.startsWith: the characters of p
are an initial segment of the characters of s. -/
def jsStartsWith (s p : String) : Bool :=
  s.data.take p.data.length == p.data

/-- Optional named numeric metrics of the features mapping; an absent key is
none, and the JSON object with no keys is the record with every field none. -/
structure Features where
  sentTnx : Option ℚ
  receivedTnx : Option ℚ
  totalEtherSent : Option ℚ
  totalEtherReceived : Option ℚ
  totalEtherBalance : Option ℚ
deriving DecidableEq

/-- Parsed JSON body of a response (the value bound to data in the source):
the AnalysisResult fields together with the optional error field read on the
non-success path. -/
structure Data where
  address : String
  verdict : String
  confidence : ℚ
  transaction_count : ℤ
  features : Option Features
  explanations : Option (List (String × ℚ))
  error : Option String
deriving DecidableEq

/-- React state of the App component: the four useState cells. -/
structure UiState where
  address : String
  result : Option Data
  loading : Bool
  error : String
deriving DecidableEq

/-- Outcome of the fetch plus response.json() step: either both succeed,
yielding the HTTP ok flag and the parsed body, or one of them throws
(connection failure or parse failure), landing in the catch block. -/
inductive FetchOutcome where
  | response (ok : Bool) (data : Data)
  | transportError
deriving DecidableEq

/-- Observable effects of one analyzeAddress call: the state visible while
the request is awaited (none when validation failed and no request was
issued), the address string carried in the request body (none when no request
was issued), the ordered trace of setLoading calls, and the final state. -/
structure AttemptResult where
  inFlight : Option UiState
  request : Option String
  loadingSets : List Bool
  final : UiState
deriving DecidableEq

def emptyInputMsg : String := "Please enter an Ethereum address"

def malformedMsg : String := "Invalid Ethereum address format"

def genericFailureMsg : String := "Failed to analyze address"

def connectivityMsg : String :=
  "Failed to connect to API. Make sure the backend is running on port 5001."

/-- JavaScript string-or-default (the a || b idiom applied to an optional
string field): an absent field and the empty string are both falsy, so both
fall back to the default. -/
def jsOrString (o : Option String) (fallback : String) : String :=
  match o with
  | none => fallback
  | some s => if s = "" then fallback else s

/-- Shallow embedding of analyzeAddress (App.jsx lines 10-48).
Guard 1: if the trimmed address is empty, set the error and return.
Guard 2: if the raw (untrimmed) address does not start with 0x or its raw
length is not 42, set the error and return. Otherwise set loading, clear
error and result, issue one POST whose body carries the trimmed address, and
dispatch on the response: ok stores the parsed body as the result; non-ok
sets the error to the body error field with a generic fallback; a thrown
fetch or json() sets the fixed connectivity message. The finally clause
clears loading on every request path. -/
def analyzeAddress (st : UiState) (outcome : FetchOutcome) : AttemptResult :=
  if jsTrim st.address = "" then
    { inFlight := none, request := none, loadingSets := [],
      final := { st with error := emptyInputMsg } }
  else if ¬ jsStartsWith st.address "0x" ∨ st.address.length ≠ 42 then
    { inFlight := none, request := none, loadingSets := [],
      final := { st with error := malformedMsg } }
  else
    let pending : UiState := { st with loading := true, error := "", result := none }
    match outcome with
    | FetchOutcome.response ok data =>
      if ok then
        { inFlight := some pending, request := some (jsTrim st.address),
          loadingSets := [true, false],
          final := { pending with result := some data, loading := false } }
      else
        { inFlight := some pending, request := some (jsTrim st.address),
          loadingSets := [true, false],
          final := { pending with
                       error := jsOrString data.error genericFailureMsg,
                       loading := false } }
    | FetchOutcome.transportError =>
      { inFlight := some pending, request := some (jsTrim st.address),
        loadingSets := [true, false],
        final := { pending with error := connectivityMsg, loading := false } }

/-- Shallow embedding of getRiskColor (App.jsx lines 50-59); the switch is a
sequential comparison against the two known verdict strings with a default. -/
def getRiskColor (verdict : String) : String :=
  if verdict = "flagged" then "#ff4444"
  else if verdict = "not flagged" then "#44ff44"
  else "#ffaa44"

/-- Shallow embedding of getRiskLevel (App.jsx lines 61-68). -/
def getRiskLevel (verdict : String) (confidence : ℚ) : String :=
  if verdict = "flagged" then
    if confidence > 0.8 then "High Risk" else "Medium Risk"
  else if verdict = "not flagged" then
    if confidence > 0.8 then "Low Risk" else "Medium Risk"
  else "Unknown"

/-- Left-pads a digit string with zeros to the requested width. -/
def padLeftZeros (s : String) (n : ℕ) : String :=
  String.mk (List.replicate (n - s.length) '0') ++ s

/-- Nearest natural number to the nonnegative rational a / b scaled by
10 to the f, with ties rounded up: the integer part of
(a * 10 ^ f + b / 2) / b, computed exactly on numerator and denominator. -/
def roundScaled (a b : ℕ) (f : ℕ) : ℕ :=
  (2 * a * 10 ^ f + b) / (2 * b)

/-- Model of JavaScript Number.prototype.toFixed on an exact rational: the
sign is split off (as in the ECMA algorithm), the magnitude is scaled by
10 to the f and rounded to the nearest integer with ties rounded up, and the
result is printed with exactly f fractional digits. The lemma
roundScaled_eq_floor below relates the numerator-denominator computation to
the textbook floor form. -/
def toFixed (x : ℚ) (f : ℕ) : String :=
  let y : ℚ := if x < 0 then -x else x
  let n : ℕ := roundScaled y.num.toNat y.den f
  let sign : String := if x < 0 then "-" else ""
  if f = 0 then sign ++ toString n
  else sign ++ toString (n / 10 ^ f) ++ "." ++ padLeftZeros (toString (n % 10 ^ f)) f

/-- Model of the default JavaScript number-to-string conversion used when a
numeric value is interpolated into JSX with no explicit formatting: an
integral value prints with no decimal point, and a value with a terminating
decimal expansion prints with the least number of fractional digits (the
shortest decimal form). Values with no terminating decimal expansion do not
arise from JavaScript doubles; they are given an num/den fallback form. -/
def jsNumToString (x : ℚ) : String :=
  let a : ℕ := (if x < 0 then -x else x).num.toNat
  let b : ℕ := (if x < 0 then -x else x).den
  let sign : String := if x < 0 then "-" else ""
  match (List.range 21).find? (fun f => 10 ^ f % b == 0) with
  | some 0 => sign ++ toString a
  | some f =>
    let n : ℕ := a * 10 ^ f / b
    sign ++ toString (n / 10 ^ f) ++ "." ++ padLeftZeros (toString (n % 10 ^ f)) f
  | none => sign ++ toString a ++ "/" ++ toString b

/-- Rendering of the confidence line (App.jsx line 127): the confidence
times 100 formatted with one fractional digit. -/
def renderConfidence (r : Data) : String :=
  toFixed (r.confidence * 100) 1

/-- Rendering of the Sent Transactions stat value (App.jsx line 144): the
raw value is interpolated with no formatting; an absent key renders blank. -/
def renderSentTnx (f : Features) : Option String :=
  f.sentTnx.map jsNumToString

/-- Rendering of the Received Transactions stat value (App.jsx line 150). -/
def renderReceivedTnx (f : Features) : Option String :=
  f.receivedTnx.map jsNumToString

/-- Rendering of the Total ETH Sent stat value (App.jsx line 156): optional
chaining onto toFixed(4); an absent key renders blank. -/
def renderTotalEtherSent (f : Features) : Option String :=
  f.totalEtherSent.map (fun q => toFixed q 4)

/-- Rendering of the Total ETH Received stat value (App.jsx line 162). -/
def renderTotalEtherReceived (f : Features) : Option String :=
  f.totalEtherReceived.map (fun q => toFixed q 4)

/-- Rendering of the ETH Balance stat value (App.jsx line 169). -/
def renderTotalEtherBalance (f : Features) : Option String :=
  f.totalEtherBalance.map (fun q => toFixed q 4)

/-- Guard of the features stat entries (App.jsx line 139): result.features
is truthy exactly when the field is present, because any JavaScript object,
including the empty one, is truthy. -/
def featuresSectionShown (r : Data) : Bool :=
  r.features.isSome

/-- Guard of the explanations section (App.jsx line 177): the field must be
present and the array must have positive length. -/
def explanationsSectionShown (r : Data) : Bool :=
  match r.explanations with
  | none => false
  | some l => decide (l.length > 0)

/-- Rendering of the explanations list (App.jsx lines 184-189): one entry
per pair, in the given order, with the impact score formatted to four
fractional digits. -/
def renderExplanations (l : List (String × ℚ)) : List (String × String) :=
  l.map (fun p => (p.1, toFixed p.2 4))

/-- Badge text (App.jsx line 116): FLAGGED exactly on the literal verdict
string flagged, NOT FLAGGED on everything else. -/
def verdictBadge (r : Data) : String :=
  if r.verdict = "flagged" then "FLAGGED" else "NOT FLAGGED"

/-- Sample parsed body used as a concrete prior result in counterexamples. -/
def sampleData : Data :=
  { address := "0xabc", verdict := "flagged", confidence := mkRat 9 10,
    transaction_count := 3, features := none, explanations := none,
    error := none }

/-- Sample well-formed 42-character address. -/
def validAddr : String := "0x0000000000000000000000000000000000000000"

/-- Evaluation of analyzeAddress when the trimmed address is empty. -/
theorem analyzeAddress_empty (st : UiState) (o : FetchOutcome)
    (h : jsTrim st.address = "") :
    analyzeAddress st o =
      { inFlight := none, request := none, loadingSets := [],
        final := { st with error := emptyInputMsg } } := by
  rw [analyzeAddress, if_pos h]

/-- Evaluation of analyzeAddress when the raw address fails the format
check. -/
theorem analyzeAddress_malformed (st : UiState) (o : FetchOutcome)
    (h1 : jsTrim st.address ≠ "")
    (h2 : ¬ jsStartsWith st.address "0x" ∨ st.address.length ≠ 42) :
    analyzeAddress st o =
      { inFlight := none, request := none, loadingSets := [],
        final := { st with error := malformedMsg } } := by
  rw [analyzeAddress, if_neg h1, if_pos h2]

/-- Evaluation of analyzeAddress on a validated address when the response
arrives with a success status. -/
theorem analyzeAddress_ok (st : UiState) (d : Data)
    (h1 : jsTrim st.address ≠ "") (h2 : jsStartsWith st.address "0x" = true)
    (h3 : st.address.length = 42) :
    analyzeAddress st (FetchOutcome.response true d) =
      { inFlight := some { address := st.address, result := none, loading := true, error := "" },
        request := some (jsTrim st.address),
        loadingSets := [true, false],
        final := { address := st.address, result := some d, loading := false, error := "" } } := by
  rw [analyzeAddress, if_neg h1,
    if_neg (fun h => h.elim (fun hA => hA h2) (fun hB => hB h3))]
  rfl

/-- Evaluation of analyzeAddress on a validated address when the response
arrives with a non-success status. -/
theorem analyzeAddress_notOk (st : UiState) (d : Data)
    (h1 : jsTrim st.address ≠ "") (h2 : jsStartsWith st.address "0x" = true)
    (h3 : st.address.length = 42) :
    analyzeAddress st (FetchOutcome.response false d) =
      { inFlight := some { address := st.address, result := none, loading := true, error := "" },
        request := some (jsTrim st.address),
        loadingSets := [true, false],
        final := { address := st.address, result := none, loading := false,
                   error := jsOrString d.error genericFailureMsg } } := by
  rw [analyzeAddress, if_neg h1,
    if_neg (fun h => h.elim (fun hA => hA h2) (fun hB => hB h3))]
  rfl

/-- Evaluation of analyzeAddress on a validated address when the transport
fails. -/
theorem analyzeAddress_transport (st : UiState)
    (h1 : jsTrim st.address ≠ "") (h2 : jsStartsWith st.address "0x" = true)
    (h3 : st.address.length = 42) :
    analyzeAddress st FetchOutcome.transportError =
      { inFlight := some { address := st.address, result := none, loading := true, error := "" },
        request := some (jsTrim st.address),
        loadingSets := [true, false],
        final := { address := st.address, result := none, loading := false,
                   error := connectivityMsg } } := by
  rw [analyzeAddress, if_neg h1,
    if_neg (fun h => h.elim (fun hA => hA h2) (fun hB => hB h3))]

/-- Justification of the numerator-denominator rounding used by toFixed: on
a nonnegative rational, roundScaled computes the floor of the value scaled
by 10 to the f plus one half, the textbook round-half-up. -/
theorem roundScaled_eq_floor (y : ℚ) (f : ℕ) (hy : 0 ≤ y) :
    (roundScaled y.num.toNat y.den f : ℤ) = Int.floor (y * 10 ^ f + 1/2) := by
  have hnum : ((y.num.toNat : ℤ)) = y.num := Int.toNat_of_nonneg (Rat.num_nonneg.mpr hy)
  set a := y.num.toNat with ha
  set b := y.den with hb
  have hbq : (b : ℚ) ≠ 0 := Nat.cast_ne_zero.mpr y.den_nz
  have hy' : y = ((a : ℤ) : ℚ) / (b : ℚ) := by
    rw [hnum, hb, Rat.num_div_den]
  have key : y * 10 ^ f + 1/2 =
      (((2 * a * 10 ^ f + b : ℕ) : ℤ) : ℚ) / ((2 * b : ℕ) : ℚ) := by
    rw [hy']; push_cast; field_simp; ring
  rw [key, Rat.floor_intCast_div_natCast]
  unfold roundScaled
  push_cast [Int.ofNat_ediv]
  rfl

/-- Witness for roundScaled_eq_floor at 85.6 scaled by one digit. -/
theorem roundScaled_eq_floor_witness :
    (roundScaled (mkRat 856 10).num.toNat (mkRat 856 10).den 1 : ℤ) =
      Int.floor ((mkRat 856 10) * 10 ^ (1 : ℕ) + 1/2) :=
  roundScaled_eq_floor (mkRat 856 10) 1 (by norm_num [Rat.mkRat_eq_div])

/-- C1: for every verdict and confidence, getRiskLevel returns High Risk on
verdict flagged with confidence above 0.8, Medium Risk on flagged at or
below 0.8, Low Risk on not flagged above 0.8, Medium Risk on not flagged at
or below 0.8, and Unknown on any other verdict; the boundary value 0.8
itself maps to Medium Risk for both known verdicts. -/
theorem C1_risk_level_mapping (verdict : String) (c : ℚ) :
    (verdict = "flagged" → 0.8 < c → getRiskLevel verdict c = "High Risk") ∧
    (verdict = "flagged" → c ≤ 0.8 → getRiskLevel verdict c = "Medium Risk") ∧
    (verdict = "not flagged" → 0.8 < c → getRiskLevel verdict c = "Low Risk") ∧
    (verdict = "not flagged" → c ≤ 0.8 → getRiskLevel verdict c = "Medium Risk") ∧
    (verdict ≠ "flagged" → verdict ≠ "not flagged" → getRiskLevel verdict c = "Unknown") ∧
    getRiskLevel "flagged" 0.8 = "Medium Risk" ∧
    getRiskLevel "not flagged" 0.8 = "Medium Risk" := by
  unfold getRiskLevel
  refine ⟨?_, ?_, ?_, ?_, ?_, ?_, ?_⟩
  · intro hv hc; subst hv; rw [if_pos rfl, if_pos hc]
  · intro hv hc; subst hv; rw [if_pos rfl, if_neg (not_lt.mpr hc)]
  · intro hv hc; subst hv; rw [if_neg (by decide), if_pos rfl, if_pos hc]
  · intro hv hc; subst hv; rw [if_neg (by decide), if_pos rfl, if_neg (not_lt.mpr hc)]
  · intro h1 h2; rw [if_neg h1, if_neg h2]
  · rw [if_pos rfl, if_neg (lt_irrefl (0.8 : ℚ))]
  · rw [if_neg (by decide), if_pos rfl, if_neg (lt_irrefl (0.8 : ℚ))]

/-- Witness for C1 at the five example points of the specification. -/
theorem C1_risk_level_mapping_witness :
    getRiskLevel "flagged" 0.81 = "High Risk" ∧
    getRiskLevel "flagged" 0.8 = "Medium Risk" ∧
    getRiskLevel "not flagged" 0.95 = "Low Risk" ∧
    getRiskLevel "not flagged" 0.5 = "Medium Risk" ∧
    getRiskLevel "mystery" 0.9 = "Unknown" :=
  ⟨(C1_risk_level_mapping "flagged" 0.81).1 rfl (by norm_num),
   (C1_risk_level_mapping "flagged" 0.8).2.1 rfl le_rfl,
   (C1_risk_level_mapping "not flagged" 0.95).2.2.1 rfl (by norm_num),
   (C1_risk_level_mapping "not flagged" 0.5).2.2.2.1 rfl (by norm_num),
   (C1_risk_level_mapping "mystery" 0.9).2.2.2.2.1 (by decide) (by decide)⟩

/-- C9: the color and label classifiers are total over arbitrary verdict
strings: flagged maps to the alert color, not flagged to the safe color, and
any other verdict to the neutral color and the Unknown label. -/
theorem C9_classifier_total (verdict : String) (c : ℚ) :
    (verdict = "flagged" → getRiskColor verdict = "#ff4444") ∧
    (verdict = "not flagged" → getRiskColor verdict = "#44ff44") ∧
    (verdict ≠ "flagged" → verdict ≠ "not flagged" →
      getRiskColor verdict = "#ffaa44" ∧ getRiskLevel verdict c = "Unknown") := by
  refine ⟨?_, ?_, ?_⟩
  · intro hv; subst hv; rfl
  · intro hv; subst hv; rfl
  · intro h1 h2
    constructor
    · unfold getRiskColor; rw [if_neg h1, if_neg h2]
    · unfold getRiskLevel; rw [if_neg h1, if_neg h2]

/-- Witness for C9 on the two known verdicts and an unrecognized one. -/
theorem C9_classifier_total_witness :
    getRiskColor "flagged" = "#ff4444" ∧
    getRiskColor "not flagged" = "#44ff44" ∧
    getRiskColor "pending review" = "#ffaa44" ∧
    getRiskLevel "pending review" 0.9 = "Unknown" :=
  ⟨(C9_classifier_total "flagged" 0).1 rfl,
   (C9_classifier_total "not flagged" 0).2.1 rfl,
   ((C9_classifier_total "pending review" 0.9).2.2 (by decide) (by decide)).1,
   ((C9_classifier_total "pending review" 0.9).2.2 (by decide) (by decide)).2⟩

/-- C10: every rendered result whose verdict is anything other than the
literal string flagged gets the badge text NOT FLAGGED. -/
theorem C10_badge_not_flagged (r : Data) (h : r.verdict ≠ "flagged") :
    verdictBadge r = "NOT FLAGGED" := by
  unfold verdictBadge; rw [if_neg h]

/-- Witness for C10 at an unrecognized verdict string. -/
theorem C10_badge_not_flagged_witness :
    verdictBadge { sampleData with verdict := "suspicious" } = "NOT FLAGGED" :=
  C10_badge_not_flagged { sampleData with verdict := "suspicious" } (by decide)

/-- C8: every input failing local validation sets the corresponding
validator message, with the empty-input check applied first (no format
hypothesis is needed for it), and no request is issued on either failure. -/
theorem C8_validation_failure (st : UiState) (o : FetchOutcome) :
    (jsTrim st.address = "" →
      (analyzeAddress st o).final.error = emptyInputMsg ∧
      (analyzeAddress st o).request = none ∧
      (analyzeAddress st o).inFlight = none) ∧
    (jsTrim st.address ≠ "" →
      (¬ jsStartsWith st.address "0x" ∨ st.address.length ≠ 42) →
      (analyzeAddress st o).final.error = malformedMsg ∧
      (analyzeAddress st o).request = none ∧
      (analyzeAddress st o).inFlight = none) := by
  constructor
  · intro h; rw [analyzeAddress_empty st o h]; exact ⟨rfl, rfl, rfl⟩
  · intro h1 h2; rw [analyzeAddress_malformed st o h1 h2]; exact ⟨rfl, rfl, rfl⟩

/-- Witness for C8 on a whitespace-only input and a short malformed input. -/
theorem C8_validation_failure_witness :
    (analyzeAddress { address := "   ", result := none, loading := false, error := "" }
        FetchOutcome.transportError).final.error = emptyInputMsg ∧
    (analyzeAddress { address := "0zXY", result := none, loading := false, error := "" }
        FetchOutcome.transportError).final.error = malformedMsg ∧
    (analyzeAddress { address := "0zXY", result := none, loading := false, error := "" }
        FetchOutcome.transportError).request = none :=
  ⟨((C8_validation_failure _ _).1 (by decide)).1,
   ((C8_validation_failure _ _).2 (by decide) (by decide)).1,
   ((C8_validation_failure _ _).2 (by decide) (by decide)).2.1⟩

/-- C2 counterexample: a raw input with one leading space whose trimmed form
is a well-formed 42-character 0x address. The claim predicts that validation
succeeds and the trimmed string is submitted, but the code applies the
format check to the raw string, rejects the input with the invalid-format
message, and issues no request. -/
theorem C2_counterexample :
    jsStartsWith (jsTrim (" " ++ validAddr)) "0x" = true ∧
    (jsTrim (" " ++ validAddr)).length = 42 ∧
    (analyzeAddress { address := " " ++ validAddr, result := none, loading := false, error := "" }
        FetchOutcome.transportError).request = none ∧
    (analyzeAddress { address := " " ++ validAddr, result := none, loading := false, error := "" }
        FetchOutcome.transportError).final.error = malformedMsg := by
  decide

/-- C2 amended: the malformed-address check reads the raw, untrimmed input.
For every raw input whose trimmed form is non-empty: if the raw string does
not start with 0x or its raw length is not exactly 42, validation fails with
the invalid-format message and no request is issued; if the raw string
starts with 0x and has raw length exactly 42, validation succeeds and the
trimmed string is used unchanged as the submitted address. -/
theorem C2_amended_raw_format_check (st : UiState) (o : FetchOutcome)
    (h1 : jsTrim st.address ≠ "") :
    ((¬ jsStartsWith st.address "0x" ∨ st.address.length ≠ 42) →
      (analyzeAddress st o).final.error = malformedMsg ∧
      (analyzeAddress st o).request = none) ∧
    (jsStartsWith st.address "0x" = true → st.address.length = 42 →
      (analyzeAddress st o).request = some (jsTrim st.address)) := by
  constructor
  · intro h2; rw [analyzeAddress_malformed st o h1 h2]; exact ⟨rfl, rfl⟩
  · intro h2 h3
    cases o with
    | response ok d =>
      cases ok with
      | false => rw [analyzeAddress_notOk st d h1 h2 h3]
      | true => rw [analyzeAddress_ok st d h1 h2 h3]
    | transportError => rw [analyzeAddress_transport st h1 h2 h3]

/-- Witness for the amended C2 on a well-formed raw address and a short
malformed one. -/
theorem C2_amended_raw_format_check_witness :
    (analyzeAddress { address := validAddr, result := none, loading := false, error := "" }
        FetchOutcome.transportError).request = some (jsTrim validAddr) ∧
    (analyzeAddress { address := "0x123", result := none, loading := false, error := "" }
        FetchOutcome.transportError).final.error = malformedMsg :=
  ⟨(C2_amended_raw_format_check _ _ (by decide)).2 (by decide) (by decide),
   ((C2_amended_raw_format_check _ _ (by decide)).1 (by decide)).1⟩

/-- C3 counterexample: starting from a state holding a previous Succeeded
result, submitting a malformed input sets the validation error but leaves
the stale result in place, so a Failed outcome is displayed alongside a
stale Succeeded result, contradicting the claim that every submission
discards the prior variant entirely. -/
theorem C3_counterexample :
    (analyzeAddress { address := "abc", result := some sampleData, loading := false, error := "" }
        FetchOutcome.transportError).final.result = some sampleData ∧
    (analyzeAddress { address := "abc", result := some sampleData, loading := false, error := "" }
        FetchOutcome.transportError).final.error ≠ "" := by
  decide

/-- C3 amended: a submission that passes validation clears any previous
result and error on entering Loading, so Loading is never accompanied by a
stale result or error; a submission that fails validation leaves the prior
result in place (and issues no request), so its Failed message can be
displayed alongside a stale Succeeded result. -/
theorem C3_amended_clear_on_submit (st : UiState) (o : FetchOutcome) :
    (jsTrim st.address ≠ "" → jsStartsWith st.address "0x" = true →
      st.address.length = 42 →
      (analyzeAddress st o).inFlight =
        some { address := st.address, result := none, loading := true, error := "" }) ∧
    ((jsTrim st.address = "" ∨ ¬ jsStartsWith st.address "0x" ∨ st.address.length ≠ 42) →
      (analyzeAddress st o).final.result = st.result ∧
      (analyzeAddress st o).inFlight = none) := by
  constructor
  · intro h1 h2 h3
    cases o with
    | response ok d =>
      cases ok with
      | false => rw [analyzeAddress_notOk st d h1 h2 h3]
      | true => rw [analyzeAddress_ok st d h1 h2 h3]
    | transportError => rw [analyzeAddress_transport st h1 h2 h3]
  · intro h
    by_cases he : jsTrim st.address = ""
    · rw [analyzeAddress_empty st o he]; exact ⟨rfl, rfl⟩
    · rw [analyzeAddress_malformed st o he (h.resolve_left he)]; exact ⟨rfl, rfl⟩

/-- Witness for the amended C3: a valid submission from a dirty state shows
the cleared in-flight state, and a malformed submission keeps the stale
result. -/
theorem C3_amended_clear_on_submit_witness :
    (analyzeAddress { address := validAddr, result := some sampleData, loading := false,
                      error := "old error" } FetchOutcome.transportError).inFlight =
      some { address := validAddr, result := none, loading := true, error := "" } ∧
    (analyzeAddress { address := "abc", result := some sampleData, loading := false, error := "" }
        FetchOutcome.transportError).final.result = some sampleData :=
  ⟨(C3_amended_clear_on_submit _ _).1 (by decide) (by decide) (by decide),
   ((C3_amended_clear_on_submit _ _).2 (Or.inr (Or.inl (by decide)))).1⟩

/-- C4 counterexample: a non-success response whose body carries the error
field with the empty-string value. The claim says the service-provided
string is used whenever the field is present (the generic message only when
it is absent), but the JavaScript falsy test sends the present empty string
to the generic message as well. -/
theorem C4_counterexample :
    (Data.error { sampleData with error := some "" }) = some "" ∧
    (analyzeAddress { address := validAddr, result := none, loading := false, error := "" }
        (FetchOutcome.response false { sampleData with error := some "" })).final.error ≠ "" ∧
    (analyzeAddress { address := validAddr, result := none, loading := false, error := "" }
        (FetchOutcome.response false { sampleData with error := some "" })).final.error =
      genericFailureMsg := by
  decide

/-- C4 amended: on a completed request for a validated address, a success
status stores the parsed body as the result and leaves no error; a
non-success status sets the service-provided error string when the field is
present and non-empty, and falls back to the generic message when the field
is absent or is the empty string; a transport failure sets the fixed
connectivity message, which is distinct from the generic service message. -/
theorem C4_amended_response_handling (st : UiState) (d : Data)
    (h1 : jsTrim st.address ≠ "") (h2 : jsStartsWith st.address "0x" = true)
    (h3 : st.address.length = 42) :
    ((analyzeAddress st (FetchOutcome.response true d)).final.result = some d ∧
     (analyzeAddress st (FetchOutcome.response true d)).final.error = "") ∧
    (d.error = none ∨ d.error = some "" →
      (analyzeAddress st (FetchOutcome.response false d)).final.error = genericFailureMsg) ∧
    (∀ s : String, d.error = some s → s ≠ "" →
      (analyzeAddress st (FetchOutcome.response false d)).final.error = s) ∧
    (analyzeAddress st (FetchOutcome.response false d)).final.result = none ∧
    (analyzeAddress st FetchOutcome.transportError).final.error = connectivityMsg ∧
    connectivityMsg ≠ genericFailureMsg := by
  rw [analyzeAddress_ok st d h1 h2 h3, analyzeAddress_notOk st d h1 h2 h3,
    analyzeAddress_transport st h1 h2 h3]
  refine ⟨⟨rfl, rfl⟩, ?_, ?_, rfl, rfl, by decide⟩
  · intro h
    cases h with
    | inl h => simp [jsOrString, h]
    | inr h => simp [jsOrString, h]
  · intro s hs hne
    simp only [jsOrString, hs]
    rw [if_neg hne]

/-- Witness for the amended C4 at a success response, a service error with
the message too many requests, and a transport failure. -/
theorem C4_amended_response_handling_witness :
    (analyzeAddress { address := validAddr, result := none, loading := false, error := "" }
        (FetchOutcome.response true sampleData)).final.result = some sampleData ∧
    (analyzeAddress { address := validAddr, result := none, loading := false, error := "" }
        (FetchOutcome.response false { sampleData with error := some "too many requests" })).final.error =
      "too many requests" ∧
    (analyzeAddress { address := validAddr, result := none, loading := false, error := "" }
        FetchOutcome.transportError).final.error = connectivityMsg :=
  ⟨((C4_amended_response_handling _ sampleData (by decide) (by decide) (by decide)).1).1,
   (C4_amended_response_handling _ { sampleData with error := some "too many requests" }
      (by decide) (by decide) (by decide)).2.2.1 "too many requests" rfl (by decide),
   (C4_amended_response_handling _ sampleData (by decide) (by decide) (by decide)).2.2.2.2.1⟩

/-- C7: on every attempt that passes validation, whatever the outcome, the
setLoading trace is exactly one set to true followed by exactly one clear to
false, and the final state is not Loading. -/
theorem C7_loading_cleared_once (st : UiState) (o : FetchOutcome)
    (h1 : jsTrim st.address ≠ "") (h2 : jsStartsWith st.address "0x" = true)
    (h3 : st.address.length = 42) :
    (analyzeAddress st o).loadingSets = [true, false] ∧
    (analyzeAddress st o).final.loading = false := by
  cases o with
  | response ok d =>
    cases ok with
    | false => rw [analyzeAddress_notOk st d h1 h2 h3]; exact ⟨rfl, rfl⟩
    | true => rw [analyzeAddress_ok st d h1 h2 h3]; exact ⟨rfl, rfl⟩
  | transportError => rw [analyzeAddress_transport st h1 h2 h3]; exact ⟨rfl, rfl⟩

/-- Witness for C7 on the success and the transport-failure outcomes. -/
theorem C7_loading_cleared_once_witness :
    (analyzeAddress { address := validAddr, result := none, loading := false, error := "" }
        (FetchOutcome.response true sampleData)).loadingSets = [true, false] ∧
    (analyzeAddress { address := validAddr, result := none, loading := false, error := "" }
        FetchOutcome.transportError).final.loading = false :=
  ⟨(C7_loading_cleared_once _ _ (by decide) (by decide) (by decide)).1,
   (C7_loading_cleared_once _ _ (by decide) (by decide) (by decide)).2⟩

/-- C5 counterexample: a features mapping whose sent-transaction count is 5.
The claim predicts every present numeric feature value, including the
sent-transaction count, renders with exactly four decimal digits, but the
code interpolates the sent and received counts with no formatting, so 5
renders as 5 rather than 5.0000. -/
theorem C5_counterexample :
    renderSentTnx { sentTnx := some 5, receivedTnx := none, totalEtherSent := none,
                    totalEtherReceived := none, totalEtherBalance := none } = some "5" ∧
    toFixed 5 4 = "5.0000" ∧
    renderSentTnx { sentTnx := some 5, receivedTnx := none, totalEtherSent := none,
                    totalEtherReceived := none, totalEtherBalance := none } ≠
      some (toFixed 5 4) := by
  decide

/-- C5 amended: the confidence renders as the value times 100 fixed to one
fractional digit; the three ether-amount feature values render with exactly
four decimal digits when present and blank when absent; the sent- and
received-transaction counts render with the default number-to-string
conversion (no four-digit formatting) when present and blank when absent;
no rendering crashes on an absent key. Concrete evaluations of the
formatters are included. -/
theorem C5_amended_presenter_formatting (r : Data) (f : Features) (q : ℚ) :
    renderConfidence r = toFixed (r.confidence * 100) 1 ∧
    (f.totalEtherSent = some q → renderTotalEtherSent f = some (toFixed q 4)) ∧
    (f.totalEtherSent = none → renderTotalEtherSent f = none) ∧
    (f.totalEtherReceived = some q → renderTotalEtherReceived f = some (toFixed q 4)) ∧
    (f.totalEtherReceived = none → renderTotalEtherReceived f = none) ∧
    (f.totalEtherBalance = some q → renderTotalEtherBalance f = some (toFixed q 4)) ∧
    (f.totalEtherBalance = none → renderTotalEtherBalance f = none) ∧
    (f.sentTnx = some q → renderSentTnx f = some (jsNumToString q)) ∧
    (f.sentTnx = none → renderSentTnx f = none) ∧
    (f.receivedTnx = some q → renderReceivedTnx f = some (jsNumToString q)) ∧
    (f.receivedTnx = none → renderReceivedTnx f = none) ∧
    (0.856 : ℚ) * 100 = mkRat 856 10 ∧
    toFixed (mkRat 856 10) 1 = "85.6" ∧
    toFixed (mkRat 12345678 10000000) 4 = "1.2346" ∧
    jsNumToString 5 = "5" := by
  refine ⟨rfl, ?_, ?_, ?_, ?_, ?_, ?_, ?_, ?_, ?_, ?_,
    by rw [Rat.mkRat_eq_div]; norm_num, by decide, by decide, by decide⟩
  all_goals intro h
  all_goals simp [renderTotalEtherSent, renderTotalEtherReceived,
    renderTotalEtherBalance, renderSentTnx, renderReceivedTnx, h]

/-- Witness for the amended C5 at a concrete result and features mapping. -/
theorem C5_amended_presenter_formatting_witness :
    renderConfidence sampleData = toFixed (Data.confidence sampleData * 100) 1 ∧
    renderTotalEtherSent { sentTnx := none, receivedTnx := none,
                           totalEtherSent := some (mkRat 15 10), totalEtherReceived := none,
                           totalEtherBalance := none } = some (toFixed (mkRat 15 10) 4) ∧
    renderSentTnx { sentTnx := some 5, receivedTnx := none, totalEtherSent := none,
                    totalEtherReceived := none, totalEtherBalance := none } =
      some (jsNumToString 5) ∧
    renderReceivedTnx { sentTnx := none, receivedTnx := none, totalEtherSent := none,
                        totalEtherReceived := none, totalEtherBalance := none } = none :=
  ⟨(C5_amended_presenter_formatting sampleData
      { sentTnx := none, receivedTnx := none, totalEtherSent := none,
        totalEtherReceived := none, totalEtherBalance := none } 0).1,
   (C5_amended_presenter_formatting sampleData
      { sentTnx := none, receivedTnx := none, totalEtherSent := some (mkRat 15 10),
        totalEtherReceived := none, totalEtherBalance := none } (mkRat 15 10)).2.1 rfl,
   (C5_amended_presenter_formatting sampleData
      { sentTnx := some 5, receivedTnx := none, totalEtherSent := none,
        totalEtherReceived := none, totalEtherBalance := none } 5).2.2.2.2.2.2.2.1 rfl,
   (C5_amended_presenter_formatting sampleData
      { sentTnx := none, receivedTnx := none, totalEtherSent := none,
        totalEtherReceived := none, totalEtherBalance := none } 0).2.2.2.2.2.2.2.2.2.2.1 rfl⟩

/-- C6 counterexample: a Succeeded result whose features mapping is present
but empty (the JSON object with no keys). The claim predicts the features
stat section is omitted entirely, but an object is truthy in JavaScript even
when empty, so the section is rendered (its individual values all blank). -/
theorem C6_counterexample :
    featuresSectionShown
      { sampleData with
          features := some { sentTnx := none, receivedTnx := none, totalEtherSent := none,
                             totalEtherReceived := none, totalEtherBalance := none } } = true ∧
    renderSentTnx { sentTnx := none, receivedTnx := none, totalEtherSent := none,
                    totalEtherReceived := none, totalEtherBalance := none } = none := by
  decide

/-- C6 amended: the features stat section is omitted exactly when the
features field is absent (when it is present but empty the section still
renders, with blank values); the explanations section is omitted when
explanations is absent or empty, and when present and non-empty it renders
one entry per pair in the service-provided order with impact scores
formatted to four decimal digits. -/
theorem C6_amended_section_rendering (r : Data) (l : List (String × ℚ)) :
    (r.features = none → featuresSectionShown r = false) ∧
    (∀ f : Features, r.features = some f → featuresSectionShown r = true) ∧
    (r.explanations = none → explanationsSectionShown r = false) ∧
    (r.explanations = some [] → explanationsSectionShown r = false) ∧
    (r.explanations = some l → l ≠ [] → explanationsSectionShown r = true) ∧
    renderExplanations l = l.map (fun p => (p.1, toFixed p.2 4)) ∧
    renderExplanations [("age", mkRat 1234 10000), ("balance", mkRat (-5678) 10000)] =
      [("age", "0.1234"), ("balance", "-0.5678")] := by
  refine ⟨?_, ?_, ?_, ?_, ?_, rfl, by decide⟩
  · intro h; simp [featuresSectionShown, h]
  · intro f h; simp [featuresSectionShown, h]
  · intro h; simp [explanationsSectionShown, h]
  · intro h; simp [explanationsSectionShown, h]
  · intro h hne
    simp only [explanationsSectionShown, h]
    rw [decide_eq_true_eq]
    exact List.length_pos.mpr hne

/-- Witness for the amended C6: absent features hide the section, an
explanations list of two entries renders in order with four-digit scores. -/
theorem C6_amended_section_rendering_witness :
    featuresSectionShown sampleData = false ∧
    explanationsSectionShown
      { sampleData with
          explanations := some [("age", mkRat 1234 10000), ("balance", mkRat (-5678) 10000)] } =
      true ∧
    renderExplanations [("age", mkRat 1234 10000), ("balance", mkRat (-5678) 10000)] =
      [("age", "0.1234"), ("balance", "-0.5678")] :=
  ⟨(C6_amended_section_rendering sampleData []).1 rfl,
   (C6_amended_section_rendering
      { sampleData with
          explanations := some [("age", mkRat 1234 10000), ("balance", mkRat (-5678) 10000)] }
      [("age", mkRat 1234 10000), ("balance", mkRat (-5678) 10000)]).2.2.2.2.1 rfl (by decide),
   (C6_amended_section_rendering sampleData
      [("age", mkRat 1234 10000), ("balance", mkRat (-5678) 10000)]).2.2.2.2.2.2⟩

end WalletDetection
